import Mathlib

/-!
# MentorAI — shallow embedding and verification of the orchestration core

This file embeds the orchestration core of the MentorAI repository
(`src/agents/*.py`, `src/graph.py`) as executable Lean definitions and
proves properties of them.

Modelling conventions:

* External collaborators (the text-generation service and the vector
  index) are passed in as explicit oracle functions.  For the three
  parsing stages the oracle returns the *parse outcome* of the
  generation reply, of type `Option Json`: `none` models a reply on
  which `json.loads` raises `JSONDecodeError`, `some j` a reply that
  parses to the JSON value `j`.
* Python exceptions that escape a stage are modelled with
  `Except PyErr`; a stage that cannot raise is a total function.
* Python `dict`s coming from the caller are modelled as structures
  (`AgentState`, `Question`); the JSON values coming back from the
  generation service keep the dynamic `Json` representation, since the
  code inspects them field by field.
* `student_answers` (a Python `dict[int, str]`, iterated in insertion
  order) is modelled as an association list `List (Int × String)`.
* Numeric JSON scores are modelled as integers (`Int`), which covers
  every value the code itself produces (0, 50, 100 and the generation
  service's documented `0-100` range).
-/

namespace MentorAI

/-! ## Python string stripping (`str.strip()` as used by the code) -/

/-- Whitespace characters removed by Python's `str.strip()` (the ASCII
ones: space, tab, newline, carriage return, vertical tab, form feed). -/
def isPySpace (c : Char) : Bool :=
  c = ' ' || c = '\t' || c = '\n' || c = '\r' || c.toNat = 11 || c.toNat = 12

/-- `str.strip()` on a list of characters: drop whitespace from the
front, then from the back. -/
def pyStripList (l : List Char) : List Char :=
  ((l.dropWhile isPySpace).reverse.dropWhile isPySpace).reverse

/-- Python's `str.strip()` with no arguments. -/
def pyStrip (s : String) : String :=
  ⟨pyStripList s.data⟩

/-! ## JSON values and Python errors -/

/-- Parsed JSON values (the result of a successful `json.loads`).
Numbers are modelled as integers, see the header comment. -/
inductive Json where
  | null : Json
  | bool : Bool → Json
  | num : Int → Json
  | str : String → Json
  | arr : List Json → Json
  | obj : List (String × Json) → Json

/-- `j[key]` on a parsed JSON value: `some v` when `j` is an object
with the key, `none` otherwise (the Python code would raise `KeyError`
or `TypeError` in the `none` case). -/
def Json.getKey : Json → String → Option Json
  | .obj fields, k => fields.lookup k
  | _, _ => none

/-- Extract a JSON string. -/
def Json.asStr : Json → Option String
  | .str s => some s
  | _ => none

/-- Extract a JSON number. -/
def Json.asInt : Json → Option Int
  | .num n => some n
  | _ => none

/-- Python truthiness of a parsed JSON value (used by
`e.get("is_correct", False)`-style reads). -/
def Json.pyTruthy : Json → Bool
  | .null => false
  | .bool b => b
  | .num n => n != 0
  | .str s => !(s == "")
  | .arr xs => !xs.isEmpty
  | .obj fs => !fs.isEmpty

/-- Python exceptions that can escape a stage. -/
inductive PyErr where
  | keyError : String → PyErr
  | typeError : PyErr
  | indexError : PyErr
  | attributeError : PyErr
deriving DecidableEq

/-! ## Python rounding and list indexing -/

/-- Round a rational to the nearest integer, ties to even
(the rounding used by Python's builtin `round`). -/
def roundHalfEven (q : ℚ) : Int :=
  if q - ⌊q⌋ < 1/2 then ⌊q⌋
  else if 1/2 < q - ⌊q⌋ then ⌊q⌋ + 1
  else if ⌊q⌋ % 2 = 0 then ⌊q⌋ else ⌊q⌋ + 1

/-- Python's `round(x, 2)`. -/
def pyRound2 (q : ℚ) : ℚ :=
  (roundHalfEven (q * 100) : ℚ) / 100

/-- Python list subscription `l[i]` with an `int` index: non-negative
indices count from the front, negative indices from the back; `none`
models `IndexError`. -/
def pyGet {α : Type} (l : List α) (i : Int) : Option α :=
  if 0 ≤ i then l[i.toNat]?
  else if 0 ≤ i + l.length then l[(i + l.length).toNat]? else none

/-! ## Evaluation agent (`src/agents/evaluation_agent.py`) -/

/-- One per-answer evaluation record.  In Python this is a `dict`; the
`question_number` key is absent until `evaluate_quiz` adds it, which we
model by initialising it to `0` inside `evaluate_answer`. -/
structure EvalResult where
  score : Int
  is_correct : Bool
  strengths : List String
  weaknesses : List String
  feedback : String
  improvement_tips : List String
  question_number : Int
deriving DecidableEq

/-- `EvaluationAgent.evaluate_mcq_answer`: exact string match after
stripping both answers; canned feedback interpolating the raw
`correct_answer` and `explanation`. -/
def evaluate_mcq_answer (_question student_answer correct_answer explanation : String) :
    EvalResult :=
  let student_clean := pyStrip student_answer
  let correct_clean := pyStrip correct_answer
  let is_correct := student_clean = correct_clean
  if is_correct then
    { score := 100
      is_correct := true
      strengths := ["Correct answer selected", "Good understanding of the concept"]
      weaknesses := []
      feedback := "✅ Excellent! Your answer is correct. " ++ explanation
      improvement_tips := []
      question_number := 0 }
  else
    { score := 0
      is_correct := false
      strengths := ["Attempted the question"]
      weaknesses := ["Incorrect option selected", "Review the concept"]
      feedback := "❌ Incorrect. The correct answer is: " ++ correct_answer ++ ". " ++ explanation
      improvement_tips := ["Review the relevant study material",
        "Focus on understanding key concepts",
        "Try similar practice questions"]
      question_number := 0 }

/-- The hardcoded fallback returned by `evaluate_answer` when the
generation reply fails JSON parsing (`except json.JSONDecodeError`). -/
def shortAnswerFallback : EvalResult :=
  { score := 50
    is_correct := false
    strengths := ["Attempted the question"]
    weaknesses := ["Unable to fully evaluate"]
    feedback := "Please try again with more detail."
    improvement_tips := ["Review the material", "Practice more examples"]
    question_number := 0 }

/-- Read a JSON field that the core itself never inspects again
(`strengths`, `weaknesses`, `improvement_tips`): kept as the strings it
holds, anything else dropped. -/
def strListOf (o : Option Json) : List String :=
  match o with
  | some (.arr xs) => xs.filterMap Json.asStr
  | _ => []

/-- Read an optional JSON string field, defaulting to `""`. -/
def strOf (o : Option Json) : String :=
  match o with
  | some (.str s) => s
  | _ => ""

/-- Convert a successfully parsed short-answer evaluation reply.  The
code dereferences `evaluation['score']` and `evaluation['is_correct']`
(in its log line) before returning the dict, so a reply missing either
key raises an uncaught `KeyError`; a non-numeric score would blow up at
`total_score += eval_result["score"]`, modelled as the same error
here. -/
def evalItemOfJson (j : Json) : Except PyErr EvalResult :=
  match j.getKey "score", j.getKey "is_correct" with
  | some s, some c =>
    match s.asInt with
    | some n =>
      .ok { score := n
            is_correct := c.pyTruthy
            strengths := strListOf (j.getKey "strengths")
            weaknesses := strListOf (j.getKey "weaknesses")
            feedback := strOf (j.getKey "feedback")
            improvement_tips := strListOf (j.getKey "improvement_tips")
            question_number := 0 }
    | none => .error .typeError
  | none, _ => .error (.keyError "score")
  | _, none => .error (.keyError "is_correct")

/-- The parse outcome of one short-answer evaluation reply from the
generation service: `none` models `json.loads` raising
`JSONDecodeError`.  The oracle receives the prompt inputs
(question, student answer, correct answer, context). -/
def EvalLlm : Type := String → String → String → String → Option Json

/-- `EvaluationAgent.evaluate_answer`: exact matching for
`multiple_choice` (no generation call), generation plus best-effort
parsing for everything else. -/
def evaluate_answer (llm : EvalLlm)
    (question student_answer correct_answer question_type explanation context : String) :
    Except PyErr EvalResult :=
  if question_type = "multiple_choice" then
    .ok (evaluate_mcq_answer question student_answer correct_answer explanation)
  else
    match llm question student_answer correct_answer context with
    | none => .ok shortAnswerFallback
    | some j => evalItemOfJson j

/-- One quiz question as consumed by `evaluate_quiz`
(`question_data["question"]`, `question_data["correct_answer"]`,
`question_data.get("type", "multiple_choice")`,
`question_data.get("explanation", "")`).  `qtype` stores the value the
`.get` calls produce (the Python key is named `type`). -/
structure Question where
  question : String
  qtype : String
  options : List String
  correct_answer : String
  explanation : String
deriving DecidableEq

/-- The whole-quiz evaluation summary returned by `evaluate_quiz`. -/
structure EvalSummary where
  overall_score : ℚ
  questions_evaluated : Nat
  correct_answers : Nat
  incorrect_answers : Nat
  evaluations : List EvalResult
deriving DecidableEq

/-- The `for idx, answer_text in student_answers.items()` loop of
`evaluate_quiz`: keys `idx < len(quiz)` are looked up with Python list
indexing (negative keys index from the back, keys below `-len(quiz)`
raise `IndexError`) and evaluated; other keys are skipped.  Returns the
evaluations in order together with the summed score. -/
def evalLoop (llm : EvalLlm) (quiz : List Question) (context : String) :
    List (Int × String) → Except PyErr (List EvalResult × Int)
  | [] => .ok ([], 0)
  | (idx, answer_text) :: rest =>
    if idx < (quiz.length : Int) then
      match pyGet quiz idx with
      | none => .error .indexError
      | some question_data =>
        match evaluate_answer llm question_data.question answer_text
            question_data.correct_answer question_data.qtype question_data.explanation context with
        | .error e => .error e
        | .ok r =>
          match evalLoop llm quiz context rest with
          | .error e => .error e
          | .ok (tl, ts) => .ok ({ r with question_number := idx + 1 } :: tl, r.score + ts)
    else evalLoop llm quiz context rest

/-- `EvaluationAgent.evaluate_quiz`: evaluate each in-range answer, then
average the summed score over `len(student_answers)` (the number of
*submitted* answers, evaluated or not), rounding to 2 decimals. -/
def evaluate_quiz (llm : EvalLlm) (quiz : List Question)
    (student_answers : List (Int × String)) (context : String) :
    Except PyErr EvalSummary :=
  match evalLoop llm quiz context student_answers with
  | .error e => .error e
  | .ok (evaluations, total_score) =>
    let avg_score : ℚ :=
      if student_answers ≠ [] then (total_score : ℚ) / (student_answers.length : ℚ) else 0
    let correct_count := (evaluations.filter (fun e => e.is_correct)).length
    .ok { overall_score := pyRound2 avg_score
          questions_evaluated := evaluations.length
          correct_answers := correct_count
          incorrect_answers := evaluations.length - correct_count
          evaluations := evaluations }

/-! ## Query agent (`src/agents/query_agent.py`) -/

/-- `QueryAgent.analyze_query`: the oracle is the parse outcome of the
generation reply for this query (`none` = `json.loads` raised).  On a
parsed reply the log line dereferences `result['intent']`,
`result['topic']` and `result['difficulty']` in that order, so a reply
missing one raises an uncaught `KeyError`; on parse failure the
hardcoded default dict is returned. -/
def analyze_query (llm : String → Option Json) (query : String) : Except PyErr Json :=
  match llm query with
  | some j =>
    match j.getKey "intent", j.getKey "topic", j.getKey "difficulty" with
    | some _, some _, some _ => .ok j
    | none, _, _ => .error (.keyError "intent")
    | _, none, _ => .error (.keyError "topic")
    | _, _, none => .error (.keyError "difficulty")
  | none =>
    .ok (.obj [("intent", .str "concept"), ("topic", .str query), ("difficulty", .str "medium")])

/-! ## Agent state (`src/graph.py`, `AgentState`)

The `messages` channel is write-only conversation history never read by
any stage and is omitted.  `quiz` is `Option` because the quiz node
stores Python `None` when the intent is not quiz/practice, while the
initial state holds the empty list. -/

structure AgentState where
  query : String
  intent : String
  topic : String
  difficulty : String
  context : String
  explanation : String
  quiz : Option (List Question)
  student_answers : List (Int × String)
  evaluation : Option EvalSummary
deriving DecidableEq

/-- `QueryAgent.execute`: run `analyze_query` and store
`analysis["intent"]`, `analysis["topic"]` and
`analysis.get("difficulty", "medium")` into the state.  The state
record types these fields as strings; a non-string classification value
(possible in the untyped Python dict, where it would merely make every
later routing comparison false) is modelled as a type error. -/
def queryExecute (llm : String → Option Json) (state : AgentState) :
    Except PyErr AgentState :=
  match analyze_query llm state.query with
  | .error e => .error e
  | .ok analysis =>
    match (analysis.getKey "intent").bind Json.asStr,
          (analysis.getKey "topic").bind Json.asStr with
    | some i, some t =>
      .ok { state with
            intent := i
            topic := t
            difficulty := (((analysis.getKey "difficulty").bind Json.asStr).getD "medium") }
    | _, _ => .error .typeError

/-! ## Retrieval agent (`src/agents/retrieval_agent.py`) -/

/-- `RetrievalAgent.retrieve_context`: the vector index is `none` when
no store was loaded; otherwise the oracle returns the passages for the
query at the given `k` (any search exception is caught in the source
and also yields `[]`, so the oracle is total). -/
def retrieve_context (vectorstore : Option (String → Nat → List String))
    (query : String) (k : Nat) : List String :=
  match vectorstore with
  | none => []
  | some search => search query k

/-- `RetrievalAgent.execute`: `state.get("topic", state.get("query", ""))`
reduces to the `topic` field because both keys are always present;
passages are joined with the fixed delimiter, or replaced by the
literal placeholder when there are none. -/
def retrievalExecute (vectorstore : Option (String → Nat → List String))
    (state : AgentState) : AgentState :=
  let topic := state.topic
  let contexts := retrieve_context vectorstore topic 3
  let combined_context :=
    if contexts ≠ [] then String.intercalate "\n\n---\n\n" contexts
    else "No relevant context found."
  { state with context := combined_context }

/-! ## Teaching agent (`src/agents/teaching_agent.py`) -/

/-- The `intent_instructions` table of `generate_explanation`. -/
def intentInstructions : List (String × String) :=
  [("concept", "Provide a comprehensive explanation of the concept with examples."),
   ("practice", "Provide practice examples and walk through the solution steps."),
   ("doubt", "Address the specific question clearly and concisely."),
   ("quiz", "This will be handled by the quiz agent, provide brief overview only.")]

/-- `TeachingAgent.generate_explanation`: pick the instruction for the
intent (defaulting to the `concept` one) and return the generation
service's free-text reply for (query, context, instruction,
difficulty). -/
def generate_explanation (llm : String → String → String → String → String)
    (query context intent difficulty : String) : String :=
  let instruction := (intentInstructions.lookup intent).getD
    "Provide a comprehensive explanation of the concept with examples."
  llm query context instruction difficulty

/-- `TeachingAgent.execute`: the `quiz` intent short-circuits to a
static placeholder without any generation call. -/
def teachingExecute (llm : String → String → String → String → String)
    (state : AgentState) : AgentState :=
  if state.intent = "quiz" then
    { state with explanation := "Quiz mode activated. Proceeding to quiz generation..." }
  else
    { state with explanation :=
        generate_explanation llm state.query state.context state.intent state.difficulty }

/-! ## Quiz agent (`src/agents/quiz_agent.py`) -/

/-- The hardcoded fallback quiz returned on JSON parse failure. -/
def quizFallbackQuestion (topic : String) : Question :=
  { question := "What are the key concepts in " ++ topic ++ "?"
    qtype := "short_answer"
    options := []
    correct_answer := "Based on the study material..."
    explanation := "This tests overall understanding." }

/-- Projection of one raw generated question dict onto the fields the
core reads downstream, applying the consumers' `.get` defaults
(`type` defaults to `"multiple_choice"`, `explanation` to `""`). -/
def questionOfJson (j : Json) : Question :=
  { question := strOf (j.getKey "question")
    qtype := (match j.getKey "type" with
      | some v => (v.asStr).getD ""
      | none => "multiple_choice")
    options := strListOf (j.getKey "options")
    correct_answer := strOf (j.getKey "correct_answer")
    explanation := strOf (j.getKey "explanation") }

/-- `QuizAgent.generate_quiz`: the oracle is the parse outcome of the
generation reply for (topic, context, difficulty, num_questions).
`json.loads` failure yields the single fallback question; a parsed
object yields `quiz_data.get("questions", [])`; a parsed non-object
raises an uncaught `AttributeError` at the `.get` call. -/
def generate_quiz (llm : String → String → String → Nat → Option Json)
    (topic context difficulty : String) (num_questions : Nat) :
    Except PyErr (List Question) :=
  match llm topic context difficulty num_questions with
  | none => .ok [quizFallbackQuestion topic]
  | some (.obj fields) =>
    match (Json.obj fields).getKey "questions" with
    | some (.arr xs) => .ok (xs.map questionOfJson)
    | _ => .ok []
  | some _ => .error .attributeError

/-- ASCII decimal digit (`\d` of the pattern on this code's inputs). -/
def isAsciiDigit (c : Char) : Bool := '0' ≤ c && c ≤ '9'

/-- Numeric value of a digit string (`int(match.group(1))`). -/
def parseNatDigits (l : List Char) : Nat :=
  l.foldl (fun acc c => acc * 10 + (c.toNat - '0'.toNat)) 0

/-- `re.search(r'(\d+)-question', ...)`: scan left to right; a match
starts at the first digit whose maximal digit run is followed by the
literal `-question`, and captures that run. -/
def findQcount : List Char → Option Nat
  | [] => none
  | c :: rest =>
    if isAsciiDigit c then
      if ("-question".data).isPrefixOf ((c :: rest).dropWhile isAsciiDigit) then
        some (parseNatDigits ((c :: rest).takeWhile isAsciiDigit))
      else findQcount rest
    else findQcount rest

/-- The question-count extraction of `QuizAgent.execute` (lines
138-143): search `query.lower()` for `(\d+)-question`, defaulting to
5. -/
def extract_num_questions (query : String) : Nat :=
  match findQcount (query.data.map Char.toLower) with
  | some n => n
  | none => 5

/-- `QuizAgent.execute`: intents other than quiz/practice store Python
`None` into the `quiz` field and skip generation entirely. -/
def quizExecute (llm : String → String → String → Nat → Option Json)
    (state : AgentState) : Except PyErr AgentState :=
  if state.intent ∉ (["quiz", "practice"] : List String) then
    .ok { state with quiz := none }
  else
    (generate_quiz llm state.topic state.context state.difficulty
        (extract_num_questions state.query)).map
      (fun quiz => { state with quiz := some quiz })

/-- `EvaluationAgent.execute`: nothing to evaluate short-circuits to a
`None` evaluation; otherwise `state.get("quiz", [])` is the field value
(Python `None` when the quiz node stored `None`, on which `len` inside
`evaluate_quiz` raises `TypeError`). -/
def evaluationExecute (llm : EvalLlm) (state : AgentState) :
    Except PyErr AgentState :=
  if state.student_answers = [] then .ok { state with evaluation := none }
  else
    match state.quiz with
    | none => .error .typeError
    | some quiz =>
      (evaluate_quiz llm quiz state.student_answers state.context).map
        (fun evaluation => { state with evaluation := some evaluation })

/-! ## Orchestration graph (`src/graph.py`) -/

/-- The five graph nodes. -/
inductive Node where
  | queryUnderstanding : Node
  | retrieval : Node
  | teaching : Node
  | quizGeneration : Node
  | evaluate : Node
deriving DecidableEq

/-- The external collaborators of one run, bundled. -/
structure Oracles where
  queryLlm : String → Option Json
  vectorIndex : Option (String → Nat → List String)
  teachLlm : String → String → String → String → String
  quizLlm : String → String → String → Nat → Option Json
  evalLlm : EvalLlm

/-- `TeachingAssistantGraph._route_after_retrieval`. -/
def route_after_retrieval (state : AgentState) : String :=
  let intent := state.intent
  if intent = "quiz" then "quiz"
  else if intent ∈ (["concept", "doubt", "practice"] : List String) then "teaching"
  else "end"

/-- `TeachingAssistantGraph._route_after_teaching`. -/
def route_after_teaching (state : AgentState) : String :=
  let intent := state.intent
  if intent = "practice" then "quiz" else "end"

/-- `TeachingAssistantGraph._route_after_quiz`. -/
def route_after_quiz (state : AgentState) : String :=
  let student_answers := state.student_answers
  if student_answers ≠ [] then "evaluate" else "end"

/-- The `quiz_generation → (evaluate | end)` tail of the graph:
`trace` already lists the nodes invoked before `quiz_generation`. -/
def runFromQuiz (o : Oracles) (trace : List Node) (s : AgentState) :
    List Node × Except PyErr AgentState :=
  match quizExecute o.quizLlm s with
  | .error e => (trace ++ [.quizGeneration], .error e)
  | .ok s4 =>
    if route_after_quiz s4 = "evaluate" then
      match evaluationExecute o.evalLlm s4 with
      | .error e => (trace ++ [.quizGeneration, .evaluate], .error e)
      | .ok s5 => (trace ++ [.quizGeneration, .evaluate], .ok s5)
    else (trace ++ [.quizGeneration], .ok s4)

/-- One traversal of the compiled graph built by `_build_graph`:
entry at `query_understanding`, unconditional edge to `retrieval`, then
the three conditional branch points.  Returns the nodes invoked, in
order, together with the final state (or the first uncaught
exception). -/
def runGraph (o : Oracles) (init : AgentState) :
    List Node × Except PyErr AgentState :=
  match queryExecute o.queryLlm init with
  | .error e => ([.queryUnderstanding], .error e)
  | .ok s1 =>
    let s2 := retrievalExecute o.vectorIndex s1
    if route_after_retrieval s2 = "quiz" then
      runFromQuiz o [.queryUnderstanding, .retrieval] s2
    else if route_after_retrieval s2 = "teaching" then
      let s3 := teachingExecute o.teachLlm s2
      if route_after_teaching s3 = "quiz" then
        runFromQuiz o [.queryUnderstanding, .retrieval, .teaching] s3
      else ([.queryUnderstanding, .retrieval, .teaching], .ok s3)
    else ([.queryUnderstanding, .retrieval], .ok s2)

/-- The fresh state built by `process_query` for a query and optional
answers (the `messages` channel is omitted, see `AgentState`). -/
def initialState (query : String) (student_answers : List (Int × String)) : AgentState :=
  { query := query
    intent := ""
    topic := ""
    difficulty := "medium"
    context := ""
    explanation := ""
    quiz := some []
    student_answers := student_answers
    evaluation := none }

/-! ## Lemmas about `str.strip()` -/

theorem dropWhile_append_all {p : Char → Bool} {w l : List Char}
    (h : ∀ c ∈ w, p c) : (w ++ l).dropWhile p = l.dropWhile p := by
  induction w with
  | nil => rfl
  | cons c w ih =>
    have hc : p c := h c (by simp)
    simp only [List.cons_append, List.dropWhile_cons, hc, if_true]
    exact ih (fun x hx => h x (by simp [hx]))

theorem pyStripList_append_right {l w : List Char}
    (h : ∀ c ∈ w, isPySpace c) : pyStripList (l ++ w) = pyStripList l := by
  unfold pyStripList
  rcases hd : l.dropWhile isPySpace with _ | ⟨c, d⟩
  · have hw : w.dropWhile isPySpace = [] := List.dropWhile_eq_nil_iff.mpr h
    rw [List.dropWhile_append, hd, hw]
    simp
  · rw [List.dropWhile_append, hd]
    simp only [List.isEmpty_cons, Bool.false_eq_true, if_false]
    rw [List.reverse_append]
    rw [dropWhile_append_all (fun x hx => h x (List.mem_reverse.mp hx))]

theorem pyStripList_pad {w1 w2 l : List Char}
    (h1 : ∀ c ∈ w1, isPySpace c) (h2 : ∀ c ∈ w2, isPySpace c) :
    pyStripList (w1 ++ l ++ w2) = pyStripList l := by
  have : pyStripList ((w1 ++ l) ++ w2) = pyStripList (w1 ++ l) := pyStripList_append_right h2
  rw [this]
  unfold pyStripList
  rw [dropWhile_append_all h1]

/-- Stripping is unchanged by whitespace padding on either side. -/
theorem pyStrip_pad {w1 w2 : List Char} (s : String)
    (h1 : ∀ c ∈ w1, isPySpace c) (h2 : ∀ c ∈ w2, isPySpace c) :
    pyStrip (String.mk (w1 ++ s.data ++ w2)) = pyStrip s :=
  congrArg String.mk (pyStripList_pad h1 h2)

/-- C3: evaluating a multiple-choice answer is a deterministic exact
string match after trimming leading/trailing whitespace from both
strings: score is exactly 100 with `is_correct` true when the trimmed
strings are equal and exactly 0 with `is_correct` false otherwise;
whitespace padding on either side of either string changes neither the
score nor `is_correct`; and `evaluate_answer` on a `multiple_choice`
question returns this result without consulting the generation
service. -/
theorem mcq_exact_match_after_strip
    (question student_answer correct_answer explanation context : String)
    (w1 w2 w3 w4 : List Char)
    (hw1 : ∀ c ∈ w1, isPySpace c) (hw2 : ∀ c ∈ w2, isPySpace c)
    (hw3 : ∀ c ∈ w3, isPySpace c) (hw4 : ∀ c ∈ w4, isPySpace c)
    (llm llm2 : EvalLlm) :
    ((evaluate_mcq_answer question student_answer correct_answer explanation).score
        = if pyStrip student_answer = pyStrip correct_answer then 100 else 0) ∧
    ((evaluate_mcq_answer question student_answer correct_answer explanation).is_correct = true
        ↔ pyStrip student_answer = pyStrip correct_answer) ∧
    ((evaluate_mcq_answer question (String.mk (w1 ++ student_answer.data ++ w2))
        (String.mk (w3 ++ correct_answer.data ++ w4)) explanation).score
      = (evaluate_mcq_answer question student_answer correct_answer explanation).score) ∧
    ((evaluate_mcq_answer question (String.mk (w1 ++ student_answer.data ++ w2))
        (String.mk (w3 ++ correct_answer.data ++ w4)) explanation).is_correct
      = (evaluate_mcq_answer question student_answer correct_answer explanation).is_correct) ∧
    (evaluate_answer llm question student_answer correct_answer "multiple_choice"
        explanation context
      = .ok (evaluate_mcq_answer question student_answer correct_answer explanation)) ∧
    (evaluate_answer llm question student_answer correct_answer "multiple_choice"
        explanation context
      = evaluate_answer llm2 question student_answer correct_answer "multiple_choice"
        explanation context) := by
  have hps : pyStrip (String.mk (w1 ++ student_answer.data ++ w2)) = pyStrip student_answer :=
    pyStrip_pad student_answer hw1 hw2
  have hpc : pyStrip (String.mk (w3 ++ correct_answer.data ++ w4)) = pyStrip correct_answer :=
    pyStrip_pad correct_answer hw3 hw4
  simp only [List.append_assoc] at hps hpc
  by_cases h : pyStrip student_answer = pyStrip correct_answer <;>
    simp [evaluate_mcq_answer, evaluate_answer, hps, hpc, h]

/-- Witness for `mcq_exact_match_after_strip`: the spec's own test
vector, with one-space padding around the student answer. -/
theorem mcq_exact_match_after_strip_witness :
    (evaluate_mcq_answer "Q" "B) x" "B) x" "").score = 100 ∧
    (evaluate_mcq_answer "Q" (String.mk ([' '] ++ "B) x".data ++ [' ']))
        (String.mk ([] ++ "B) x".data ++ [])) "").is_correct
      = (evaluate_mcq_answer "Q" "B) x" "B) x" "").is_correct ∧
    (evaluate_mcq_answer "Q" "A) y" "B) x" "").score = 0 := by
  have h := mcq_exact_match_after_strip "Q" "B) x" "B) x" "" "" [' '] [' '] [] []
    (by decide) (by decide) (by decide) (by decide)
    (fun _ _ _ _ => none) (fun _ _ _ _ => none)
  have h2 := mcq_exact_match_after_strip "Q" "A) y" "B) x" "" "" [] [] [] []
    (by decide) (by decide) (by decide) (by decide)
    (fun _ _ _ _ => none) (fun _ _ _ _ => none)
  refine ⟨?_, h.2.2.2.1, ?_⟩
  · rw [h.1]; decide
  · rw [h2.1]; decide

/-- C8: when the vector index yields zero passages the retrieval stage
stores the exact literal placeholder, for every state (hence every
topic, including the empty string); when it yields one or more passages
it stores them joined with the fixed multi-line delimiter. -/
theorem retrieval_placeholder_or_join
    (vectorstore : Option (String → Nat → List String)) (state : AgentState) :
    (retrieve_context vectorstore state.topic 3 = [] →
      (retrievalExecute vectorstore state).context = "No relevant context found.") ∧
    (retrieve_context vectorstore state.topic 3 ≠ [] →
      (retrievalExecute vectorstore state).context =
        String.intercalate "\n\n---\n\n" (retrieve_context vectorstore state.topic 3)) := by
  constructor <;> intro h <;> simp [retrievalExecute, h]

/-- Witness for `retrieval_placeholder_or_join`: no loaded index (zero
passages) on an empty topic, and a two-passage index. -/
theorem retrieval_placeholder_or_join_witness :
    (retrievalExecute none (initialState "" [])).context = "No relevant context found." ∧
    (retrievalExecute (some (fun _ _ => ["p1", "p2"])) (initialState "" [])).context =
      "p1\n\n---\n\np2" := by
  constructor
  · exact (retrieval_placeholder_or_join none (initialState "" [])).1 rfl
  · exact Eq.trans
      ((retrieval_placeholder_or_join (some (fun _ _ => ["p1", "p2"]))
        (initialState "" [])).2 (by simp [retrieve_context])) rfl

/-- C10: for every state whose intent is neither `quiz` nor `practice`,
the quiz agent's `execute` stores Python `None` (not an empty list)
into the `quiz` field, changes nothing else, and makes no generation
call (the result is independent of the generation oracle). -/
theorem quiz_execute_skips_other_intents
    (llm : String → String → String → Nat → Option Json) (state : AgentState)
    (h1 : state.intent ≠ "quiz") (h2 : state.intent ≠ "practice") :
    quizExecute llm state = .ok { state with quiz := none } ∧
    (∀ llm2, quizExecute llm2 state = quizExecute llm state) := by
  have hmem : state.intent ∉ (["quiz", "practice"] : List String) := by
    simp [h1, h2]
  exact ⟨by simp [quizExecute, hmem], fun llm2 => by simp [quizExecute, hmem]⟩

/-- Witness for `quiz_execute_skips_other_intents`: a `concept`-intent
state with a nonempty initial quiz field. -/
theorem quiz_execute_skips_other_intents_witness :
    quizExecute (fun _ _ _ _ => none)
      { initialState "q" [] with intent := "concept" } =
      .ok { initialState "q" [] with intent := "concept", quiz := none } := by
  exact (quiz_execute_skips_other_intents (fun _ _ _ _ => none)
    { initialState "q" [] with intent := "concept" }
    (by decide) (by decide)).1

/-- C2 (as amended): a generation reply on which JSON parsing fails
outright (`json.loads` raises) makes each parsing stage return its
hardcoded static fallback value, recovered locally with no exception:
the intent classifier falls back to
`{intent: concept, topic: query, difficulty: medium}`, the quiz
generator to the single generic question, and the short-answer
evaluator to the fixed score-50 record. -/
theorem parse_failure_static_fallbacks
    (queryLlm : String → Option Json) (query : String)
    (hq : queryLlm query = none)
    (evalLlm : EvalLlm) (q sa ca ex ctx : String)
    (he : evalLlm q sa ca ctx = none)
    (quizLlm : String → String → String → Nat → Option Json)
    (topic c d : String) (n : Nat)
    (hz : quizLlm topic c d n = none) :
    analyze_query queryLlm query =
      .ok (.obj [("intent", .str "concept"), ("topic", .str query),
                 ("difficulty", .str "medium")]) ∧
    evaluate_answer evalLlm q sa ca "short_answer" ex ctx = .ok shortAnswerFallback ∧
    generate_quiz quizLlm topic c d n = .ok [quizFallbackQuestion topic] := by
  refine ⟨?_, ?_, ?_⟩
  · simp [analyze_query, hq]
  · simp [evaluate_answer, he]
  · simp [generate_quiz, hz]

/-- Witness for `parse_failure_static_fallbacks`: the constant
unparseable-reply oracle. -/
theorem parse_failure_static_fallbacks_witness :
    analyze_query (fun _ => none) "hello" =
      .ok (.obj [("intent", .str "concept"), ("topic", .str "hello"),
                 ("difficulty", .str "medium")]) ∧
    evaluate_answer (fun _ _ _ _ => none) "Q" "a" "b" "short_answer" "" "" =
      .ok shortAnswerFallback ∧
    generate_quiz (fun _ _ _ _ => none) "trees" "" "medium" 5 =
      .ok [quizFallbackQuestion "trees"] :=
  parse_failure_static_fallbacks (fun _ => none) "hello" rfl
    (fun _ _ _ _ => none) "Q" "a" "b" "" "" rfl
    (fun _ _ _ _ => none) "trees" "" "medium" 5 rfl

/-- C2 counterexample: a reply that parses as JSON but does not have
the stage's expected shape (the empty object `{}`) is *not* recovered
into the fallback: the intent classifier and the short-answer evaluator
surface an uncaught `KeyError`, and the quiz generator returns the
empty list, which differs from its hardcoded fallback. -/
theorem wrong_shape_reply_not_fallback :
    analyze_query (fun _ => some (.obj [])) "hi" = .error (.keyError "intent") ∧
    evaluate_answer (fun _ _ _ _ => some (.obj [])) "Q" "a" "b" "short_answer" "" "" =
      .error (.keyError "score") ∧
    generate_quiz (fun _ _ _ _ => some (.obj [])) "t" "" "medium" 5 = .ok [] ∧
    ([] : List Question) ≠ [quizFallbackQuestion "t"] := by
  refine ⟨rfl, rfl, rfl, by simp⟩

/-- Spec-side reading of C7's "no such pattern": the lowercased query
contains no nonempty digit run immediately followed by the literal
`-question`. -/
def HasCountPattern (query : String) : Prop :=
  ∃ pre run post, query.data.map Char.toLower = pre ++ run ++ ("-question".data) ++ post ∧
    run ≠ [] ∧ ∀ c ∈ run, isAsciiDigit c

theorem findQcount_eq_none {l : List Char}
    (h : ¬ ∃ pre run post, l = pre ++ run ++ ("-question".data) ++ post ∧
      run ≠ [] ∧ ∀ c ∈ run, isAsciiDigit c) :
    findQcount l = none := by
  induction l with
  | nil => rfl
  | cons c rest ih =>
    by_cases hc : isAsciiDigit c
    · by_cases hp : ("-question".data).isPrefixOf ((c :: rest).dropWhile isAsciiDigit)
      · exfalso
        apply h
        obtain ⟨t, ht⟩ := List.isPrefixOf_iff_prefix.mp hp
        refine ⟨[], (c :: rest).takeWhile isAsciiDigit, t, ?_, ?_, ?_⟩
        · rw [List.nil_append, List.append_assoc, ht,
            List.takeWhile_append_dropWhile]
        · simp [List.takeWhile_cons, hc]
        · exact fun x hx => List.mem_takeWhile_imp hx
      · simp only [findQcount, hc, hp, if_true, if_false]
        apply ih
        rintro ⟨pre, run, post, heq, hne, hdig⟩
        exact h ⟨c :: pre, run, post, by rw [heq]; simp [List.append_assoc], hne, hdig⟩
    · simp only [findQcount, hc, if_false]
      apply ih
      rintro ⟨pre, run, post, heq, hne, hdig⟩
      exact h ⟨c :: pre, run, post, by rw [heq]; simp [List.append_assoc], hne, hdig⟩

/-- C7: the number of questions is parsed from the first occurrence of
`<N>-question` in the lowercased query (so matching is
case-insensitive), and defaults to 5 when the query contains no such
pattern; `QuizAgent.execute` passes exactly this count to quiz
generation when the intent is `quiz`. -/
theorem question_count_extraction :
    extract_num_questions "Give me a 12-question quiz on X" = 12 ∧
    extract_num_questions "Give me a 12-QUESTION quiz on X" = 12 ∧
    extract_num_questions "Make a 3-question quiz then a 7-question quiz" = 3 ∧
    (∀ query : String, ¬ HasCountPattern query → extract_num_questions query = 5) ∧
    (∀ (llm : String → String → String → Nat → Option Json) (state : AgentState),
      state.intent = "quiz" →
      quizExecute llm state =
        (generate_quiz llm state.topic state.context state.difficulty
            (extract_num_questions state.query)).map
          (fun quiz => { state with quiz := some quiz })) := by
  refine ⟨by decide, by decide, by decide, ?_, ?_⟩
  · intro query h
    unfold extract_num_questions
    rw [findQcount_eq_none h]
  · intro llm state hi
    simp [quizExecute, hi]

/-- Witness for `question_count_extraction`: a query with no
`<N>-question` pattern yields the default 5, and a quiz-intent state
invokes generation with the extracted count. -/
theorem question_count_extraction_witness :
    extract_num_questions "hello" = 5 ∧
    quizExecute (fun _ _ _ _ => none)
        { initialState "q" [] with intent := "quiz" } =
      (generate_quiz (fun _ _ _ _ => none) "" "" "medium"
          (extract_num_questions "q")).map
        (fun quiz =>
          { initialState "q" [] with intent := "quiz", quiz := some quiz }) := by
  constructor
  · apply question_count_extraction.2.2.2.1
    rintro ⟨pre, run, post, heq, hne, -⟩
    have hlen := congrArg List.length heq
    simp only [List.length_append] at hlen
    have h5 : ("hello".data.map Char.toLower).length = 5 := rfl
    have h9 : ("-question".data).length = 9 := rfl
    have hpos : 0 < run.length := List.length_pos.mpr hne
    rw [h5, h9] at hlen
    omega
  · exact question_count_extraction.2.2.2.2 (fun _ _ _ _ => none)
      { initialState "q" [] with intent := "quiz" } rfl

/-! ## Lemmas about `evaluate_quiz` -/

theorem evalLoop_ok_spec (llm : EvalLlm) (quiz : List Question) (ctx : String) :
    ∀ (answers : List (Int × String)) (evs : List EvalResult) (t : Int),
      evalLoop llm quiz ctx answers = .ok (evs, t) →
      evs.length = (answers.filter (fun p => p.1 < (quiz.length : Int))).length ∧
      t = (evs.map EvalResult.score).sum := by
  intro answers
  induction answers with
  | nil =>
    intro evs t h
    simp only [evalLoop, Except.ok.injEq, Prod.mk.injEq] at h
    obtain ⟨h1, h2⟩ := h
    subst h1; subst h2
    simp
  | cons p rest ih =>
    obtain ⟨idx, a⟩ := p
    intro evs t h
    by_cases hidx : idx < (quiz.length : Int)
    · simp only [evalLoop] at h
      rw [if_pos hidx] at h
      split at h
      · exact Except.noConfusion h
      · split at h
        · exact Except.noConfusion h
        · split at h
          · exact Except.noConfusion h
          · rename_i tl ts hl
            simp only [Except.ok.injEq, Prod.mk.injEq] at h
            obtain ⟨h1, h2⟩ := h
            subst h1; subst h2
            obtain ⟨ih1, ih2⟩ := ih tl ts hl
            constructor
            · simp [List.filter_cons, hidx, ih1]
            · simp [ih2]
    · simp only [evalLoop] at h
      rw [if_neg hidx] at h
      obtain ⟨ih1, ih2⟩ := ih evs t h
      exact ⟨by simp [List.filter_cons, hidx, ih1], ih2⟩

theorem evalLoop_all_skipped (llm : EvalLlm) (quiz : List Question) (ctx : String)
    (answers : List (Int × String))
    (h : ∀ p ∈ answers, ¬ p.1 < (quiz.length : Int)) :
    evalLoop llm quiz ctx answers = .ok ([], 0) := by
  induction answers with
  | nil => rfl
  | cons p rest ih =>
    obtain ⟨idx, a⟩ := p
    simp only [evalLoop]
    rw [if_neg (h (idx, a) (by simp))]
    exact ih (fun q hq => h q (by simp [hq]))

theorem roundHalfEven_intCast (n : ℤ) : roundHalfEven (n : ℚ) = n := by
  simp [roundHalfEven]

theorem pyRound2_intCast (n : ℤ) : pyRound2 (n : ℚ) = n := by
  unfold pyRound2
  rw [show ((n : ℚ) * 100) = (((n * 100 : ℤ)) : ℚ) by push_cast; ring,
    roundHalfEven_intCast]
  push_cast
  field_simp

theorem pyRound2_zero : pyRound2 0 = 0 := by
  have h := pyRound2_intCast 0
  simpa using h

theorem pyRound2_hundred : pyRound2 (100 : ℚ) = 100 := by
  rw [show (100 : ℚ) = ((100 : ℤ) : ℚ) by norm_num, pyRound2_intCast]

/-- C4: `evaluate_quiz` silently skips every answer whose key is out of
range: whenever it returns, `questions_evaluated` counts exactly the
answers with key `< len(quiz)`; and when every key is `≥ len(quiz)`
nothing is evaluated and no error is raised. -/
theorem batch_skip_out_of_range (llm : EvalLlm) (quiz : List Question)
    (answers : List (Int × String)) (ctx : String) :
    (∀ s, evaluate_quiz llm quiz answers ctx = .ok s →
      s.questions_evaluated =
        (answers.filter (fun p => p.1 < (quiz.length : Int))).length) ∧
    ((∀ p ∈ answers, (quiz.length : Int) ≤ p.1) →
      evaluate_quiz llm quiz answers ctx =
        .ok { overall_score := 0, questions_evaluated := 0, correct_answers := 0,
              incorrect_answers := 0, evaluations := [] }) := by
  constructor
  · intro s hs
    cases hl : evalLoop llm quiz ctx answers with
    | error e => rw [evaluate_quiz, hl] at hs; exact Except.noConfusion hs
    | ok pr =>
      obtain ⟨evs, t⟩ := pr
      simp only [evaluate_quiz, hl, Except.ok.injEq] at hs
      subst hs
      exact (evalLoop_ok_spec llm quiz ctx answers evs t hl).1
  · intro hall
    have hl := evalLoop_all_skipped llm quiz ctx answers
      (fun p hp => not_lt.mpr (hall p hp))
    simp only [evaluate_quiz, hl]
    have havg : (if answers ≠ [] then ((0 : Int) : ℚ) / (answers.length : ℚ) else 0) = 0 := by
      split <;> simp
    simp [havg, pyRound2_zero]

/-- Unfolding of `evaluate_quiz` for a nonempty answer set whose loop
succeeds. -/
theorem evaluate_quiz_eq (llm : EvalLlm) (quiz : List Question)
    (answers : List (Int × String)) (ctx : String)
    (evs : List EvalResult) (t : Int)
    (hl : evalLoop llm quiz ctx answers = .ok (evs, t)) (hne : answers ≠ []) :
    evaluate_quiz llm quiz answers ctx =
      .ok { overall_score := pyRound2 ((t : ℚ) / (answers.length : ℚ))
            questions_evaluated := evs.length
            correct_answers := (evs.filter (fun e => e.is_correct)).length
            incorrect_answers := evs.length - (evs.filter (fun e => e.is_correct)).length
            evaluations := evs } := by
  simp only [evaluate_quiz, hl, if_pos hne]

/-- The quiz used by the batch-skip witness. -/
def c4Quiz : List Question :=
  [{ question := "Q1", qtype := "multiple_choice", options := [],
     correct_answer := "a", explanation := "" },
   { question := "Q2", qtype := "multiple_choice", options := [],
     correct_answer := "b", explanation := "" }]

/-- The constant unparseable-reply generation oracle. -/
def noEvalLlm : EvalLlm := fun _ _ _ _ => none

/-- The single evaluation record produced for key 0 of the batch-skip
witness. -/
def c4Item : EvalResult :=
  { score := 100
    is_correct := true
    strengths := ["Correct answer selected", "Good understanding of the concept"]
    weaknesses := []
    feedback := "✅ Excellent! Your answer is correct. "
    improvement_tips := []
    question_number := 1 }

/-- The summary produced for the batch-skip witness. -/
def c4Summary : EvalSummary :=
  { overall_score := 50
    questions_evaluated := 1
    correct_answers := 1
    incorrect_answers := 0
    evaluations := [c4Item] }

/-- Witness for `batch_skip_out_of_range`: the spec's 2-question quiz
with answers at keys 0 and 5 evaluates only index 0
(`questions_evaluated = 1`), and an all-out-of-range answer set yields
the empty summary with no error. -/
theorem batch_skip_out_of_range_witness :
    evaluate_quiz noEvalLlm c4Quiz [(0, "a"), (5, "z")] "" = .ok c4Summary ∧
    c4Summary.questions_evaluated = 1 ∧
    evaluate_quiz noEvalLlm c4Quiz [(7, "z")] "" =
      .ok { overall_score := 0, questions_evaluated := 0, correct_answers := 0,
            incorrect_answers := 0, evaluations := [] } := by
  have hloop : evalLoop noEvalLlm c4Quiz "" [(0, "a"), (5, "z")] = .ok ([c4Item], 100) := rfl
  have hok : evaluate_quiz noEvalLlm c4Quiz [(0, "a"), (5, "z")] "" = .ok c4Summary := by
    rw [evaluate_quiz_eq noEvalLlm c4Quiz [(0, "a"), (5, "z")] "" [c4Item] 100 hloop
      (by simp)]
    have havg : (((100 : Int) : ℚ) / (([((0 : Int), "a"), ((5 : Int), "z")] :
        List (Int × String)).length : ℚ)) = ((50 : ℤ) : ℚ) := by norm_num
    rw [havg, pyRound2_intCast]
    simp [c4Summary, c4Item]
  refine ⟨hok, ?_, (batch_skip_out_of_range noEvalLlm c4Quiz [(7, "z")] "").2 (by decide)⟩
  have h := (batch_skip_out_of_range noEvalLlm c4Quiz [(0, "a"), (5, "z")] "").1
    c4Summary hok
  rw [h]
  decide

/-- C9: a negative key `k` with `-len(quiz) ≤ k < 0` passes the
`idx < len(quiz)` guard, is evaluated against the question at position
`len(quiz) + k` (Python negative indexing), is counted in
`questions_evaluated`, and is reported with
`question_number = k + 1`. -/
theorem negative_key_evaluated (llm : EvalLlm) (quiz : List Question) (ctx : String)
    (k : Int) (a : String) (qd : Question) (r : EvalResult)
    (hk1 : -(quiz.length : Int) ≤ k) (hk2 : k < 0)
    (hqd : quiz[(k + (quiz.length : Int)).toNat]? = some qd)
    (hr : evaluate_answer llm qd.question a qd.correct_answer qd.qtype
      qd.explanation ctx = .ok r) :
    evaluate_quiz llm quiz [(k, a)] ctx = .ok
      { overall_score := pyRound2 (r.score : ℚ)
        questions_evaluated := 1
        correct_answers := if r.is_correct then 1 else 0
        incorrect_answers := if r.is_correct then 0 else 1
        evaluations := [{ r with question_number := k + 1 }] } := by
  have hlt : k < (quiz.length : Int) := lt_of_lt_of_le hk2 (by positivity)
  have hget : pyGet quiz k = some qd := by
    unfold pyGet
    rw [if_neg (not_le.mpr hk2), if_pos (by omega)]
    exact hqd
  have hloop : evalLoop llm quiz ctx [(k, a)] =
      .ok ([{ r with question_number := k + 1 }], r.score) := by
    simp only [evalLoop, if_pos hlt, hget, hr, add_zero]
  rw [evaluate_quiz_eq llm quiz [(k, a)] ctx [{ r with question_number := k + 1 }]
    r.score hloop (by simp)]
  cases hc : r.is_correct <;> simp [List.filter_cons, hc]

/-- Witness for `negative_key_evaluated`: key `-1` on the 2-question
quiz is scored against question index 1 and reported with
`question_number = 0`. -/
theorem negative_key_evaluated_witness :
    evaluate_quiz noEvalLlm c4Quiz [(-1, "b")] "" = .ok
      { overall_score := 100
        questions_evaluated := 1
        correct_answers := 1
        incorrect_answers := 0
        evaluations := [{ score := 100, is_correct := true
                          strengths := ["Correct answer selected",
                            "Good understanding of the concept"]
                          weaknesses := []
                          feedback := "✅ Excellent! Your answer is correct. "
                          improvement_tips := []
                          question_number := 0 }] } := by
  have h := negative_key_evaluated noEvalLlm c4Quiz "" (-1) "b"
    { question := "Q2", qtype := "multiple_choice", options := [],
      correct_answer := "b", explanation := "" }
    { score := 100, is_correct := true
      strengths := ["Correct answer selected", "Good understanding of the concept"]
      weaknesses := []
      feedback := "✅ Excellent! Your answer is correct. "
      improvement_tips := []
      question_number := 0 }
    (by decide) (by decide) (by rfl) rfl
  rw [h]
  norm_num [pyRound2_intCast, pyRound2_hundred]

/-- Spec-side reading of C1's claimed formula: the mean of the
evaluated item scores, rounded to 2 decimals; 0 when no items were
evaluated. -/
def claimedOverallScore (s : EvalSummary) : ℚ :=
  if s.evaluations.length = 0 then 0
  else pyRound2 ((s.evaluations.map (fun e => (e.score : ℚ))).sum /
    (s.evaluations.length : ℚ))

theorem cast_score_sum (evs : List EvalResult) :
    (((evs.map EvalResult.score).sum : Int) : ℚ) =
      (evs.map (fun e => (e.score : ℚ))).sum := by
  induction evs with
  | nil => simp
  | cons e tl ih => simp [ih]

/-- C1 counterexample: with a 1-in-range-answer, 1-out-of-range-answer
submission on the 2-question quiz, the code returns `overall_score = 50`
(it divides by `len(student_answers) = 2`), while the mean of the
evaluated item scores rounded to 2 decimals is 100. -/
theorem overall_score_not_mean_counterexample :
    evaluate_quiz noEvalLlm c4Quiz [(0, "a"), (5, "z")] "" = .ok c4Summary ∧
    c4Summary.overall_score = 50 ∧
    claimedOverallScore c4Summary = 100 ∧
    (50 : ℚ) ≠ 100 := by
  have hloop : evalLoop noEvalLlm c4Quiz "" [(0, "a"), (5, "z")] = .ok ([c4Item], 100) := rfl
  refine ⟨?_, rfl, ?_, by norm_num⟩
  · rw [evaluate_quiz_eq noEvalLlm c4Quiz [(0, "a"), (5, "z")] "" [c4Item] 100 hloop
      (by simp)]
    have havg : (((100 : Int) : ℚ) / (([((0 : Int), "a"), ((5 : Int), "z")] :
        List (Int × String)).length : ℚ)) = ((50 : ℤ) : ℚ) := by norm_num
    rw [havg, pyRound2_intCast]
    simp [c4Summary, c4Item]
  · have h1 : (claimedOverallScore c4Summary) = pyRound2 (((100 : Int) : ℚ) / 1) := by
      simp [claimedOverallScore, c4Summary, c4Item]
    rw [h1]
    norm_num [pyRound2_intCast, pyRound2_hundred]

/-- C1 (as amended): `overall_score` is the summed evaluated score
divided by the number of *submitted* answers; when every submitted key
is in range (so every answer is evaluated) this equals the mean of the
evaluated item scores rounded to 2 decimals, and it is 0 when
`student_answers` is empty. -/
theorem overall_score_mean_when_all_in_range (llm : EvalLlm) (quiz : List Question)
    (answers : List (Int × String)) (ctx : String) (s : EvalSummary)
    (hok : evaluate_quiz llm quiz answers ctx = .ok s)
    (hin : ∀ p ∈ answers, p.1 < (quiz.length : Int)) :
    s.overall_score = claimedOverallScore s ∧ (answers = [] → s.overall_score = 0) := by
  cases hl : evalLoop llm quiz ctx answers with
  | error e => rw [evaluate_quiz, hl] at hok; exact Except.noConfusion hok
  | ok pr =>
    obtain ⟨evs, t⟩ := pr
    obtain ⟨hlen, hsum⟩ := evalLoop_ok_spec llm quiz ctx answers evs t hl
    have hfilter : answers.filter (fun p => p.1 < (quiz.length : Int)) = answers :=
      List.filter_eq_self.mpr (fun p hp => decide_eq_true (hin p hp))
    rw [hfilter] at hlen
    simp only [evaluate_quiz, hl, Except.ok.injEq] at hok
    subst hok
    by_cases hne : answers = []
    · subst hne
      have hevs : evs = [] := List.length_eq_zero.mp (by simpa using hlen)
      subst hevs
      exact ⟨by simp [claimedOverallScore, pyRound2_zero],
        fun _ => by simp [pyRound2_zero]⟩
    · refine ⟨?_, fun h => absurd h hne⟩
      have hlenne : evs.length ≠ 0 := by
        rw [hlen]
        simpa using (List.length_pos.mpr hne).ne'
      simp only [claimedOverallScore, hlenne, if_neg, if_pos hne]
      rw [← cast_score_sum, ← hsum, hlen]
      simp

/-- The quiz used by the mean-computation witness (evaluated item
scores 100, 0 and 50). -/
def w1Quiz : List Question :=
  [{ question := "Q1", qtype := "multiple_choice", options := [],
     correct_answer := "a", explanation := "" },
   { question := "Q2", qtype := "multiple_choice", options := [],
     correct_answer := "b", explanation := "" },
   { question := "Q3", qtype := "short_answer", options := [],
     correct_answer := "x", explanation := "" }]

/-- The summary produced for the mean-computation witness. -/
def w1Summary : EvalSummary :=
  { overall_score := 50
    questions_evaluated := 3
    correct_answers := 1
    incorrect_answers := 2
    evaluations :=
      [c4Item,
       { score := 0, is_correct := false
         strengths := ["Attempted the question"]
         weaknesses := ["Incorrect option selected", "Review the concept"]
         feedback := "❌ Incorrect. The correct answer is: b. "
         improvement_tips := ["Review the relevant study material",
           "Focus on understanding key concepts",
           "Try similar practice questions"]
         question_number := 2 },
       { shortAnswerFallback with question_number := 3 }] }

/-- Witness for `overall_score_mean_when_all_in_range`: evaluated item
scores [100, 0, 50] (an unparseable short-answer reply scores the
fallback 50) give `overall_score = 50`, matching the rounded mean. -/
theorem overall_score_mean_witness :
    evaluate_quiz noEvalLlm w1Quiz [(0, "a"), (1, "z"), (2, "y")] "" = .ok w1Summary ∧
    w1Summary.overall_score = claimedOverallScore w1Summary ∧
    w1Summary.overall_score = 50 := by
  have hloop : evalLoop noEvalLlm w1Quiz "" [(0, "a"), (1, "z"), (2, "y")] =
      .ok (w1Summary.evaluations, 150) := rfl
  have hok : evaluate_quiz noEvalLlm w1Quiz [(0, "a"), (1, "z"), (2, "y")] "" =
      .ok w1Summary := by
    rw [evaluate_quiz_eq noEvalLlm w1Quiz [(0, "a"), (1, "z"), (2, "y")] ""
      w1Summary.evaluations 150 hloop (by simp)]
    have havg : (((150 : Int) : ℚ) / (([((0 : Int), "a"), ((1 : Int), "z"),
        ((2 : Int), "y")] : List (Int × String)).length : ℚ)) = ((50 : ℤ) : ℚ) := by
      norm_num
    rw [havg, pyRound2_intCast]
    simp [w1Summary, c4Item, shortAnswerFallback]
  exact ⟨hok,
    (overall_score_mean_when_all_in_range noEvalLlm w1Quiz
      [(0, "a"), (1, "z"), (2, "y")] "" w1Summary hok (by decide)).1,
    by norm_num [w1Summary]⟩

/-! ## Frame lemmas for the graph nodes -/

theorem retrievalExecute_intent (vs : Option (String → Nat → List String))
    (s : AgentState) : (retrievalExecute vs s).intent = s.intent := rfl

theorem retrievalExecute_answers (vs : Option (String → Nat → List String))
    (s : AgentState) : (retrievalExecute vs s).student_answers = s.student_answers := rfl

theorem teachingExecute_intent (llm : String → String → String → String → String)
    (s : AgentState) : (teachingExecute llm s).intent = s.intent := by
  unfold teachingExecute
  split <;> rfl

theorem teachingExecute_answers (llm : String → String → String → String → String)
    (s : AgentState) : (teachingExecute llm s).student_answers = s.student_answers := by
  unfold teachingExecute
  split <;> rfl

theorem queryExecute_ok_frame (llm : String → Option Json) (init s1 : AgentState)
    (h : queryExecute llm init = .ok s1) :
    s1.student_answers = init.student_answers := by
  unfold queryExecute at h
  split at h
  · exact Except.noConfusion h
  · split at h
    · simp only [Except.ok.injEq] at h
      subst h
      rfl
    · exact Except.noConfusion h

theorem quizExecute_ok_frame (llm : String → String → String → Nat → Option Json)
    (s s4 : AgentState) (h : quizExecute llm s = .ok s4) :
    s4.intent = s.intent ∧ s4.student_answers = s.student_answers := by
  unfold quizExecute at h
  split at h
  · simp only [Except.ok.injEq] at h
    subst h
    exact ⟨rfl, rfl⟩
  · cases hg : generate_quiz llm s.topic s.context s.difficulty
        (extract_num_questions s.query) with
    | error e => rw [hg] at h; exact Except.noConfusion h
    | ok qz =>
      rw [hg] at h
      simp only [Except.map, Except.ok.injEq] at h
      subst h
      exact ⟨rfl, rfl⟩

/-- C5: on a run whose classified intent is `quiz`, Teaching is never
invoked and the route goes from Retrieval straight to QuizGeneration;
Evaluate is only invoked when `student_answers` is nonempty, and on a
run that completes it is invoked whenever `student_answers` is
nonempty. -/
theorem quiz_intent_shortcut (o : Oracles) (init s1 : AgentState)
    (hq : queryExecute o.queryLlm init = .ok s1) (hi : s1.intent = "quiz") :
    Node.teaching ∉ (runGraph o init).1 ∧
    (runGraph o init).1.take 3 = [.queryUnderstanding, .retrieval, .quizGeneration] ∧
    (Node.evaluate ∈ (runGraph o init).1 → init.student_answers ≠ []) ∧
    (∀ final, (runGraph o init).2 = .ok final → init.student_answers ≠ [] →
      Node.evaluate ∈ (runGraph o init).1) := by
  have hans1 : s1.student_answers = init.student_answers :=
    queryExecute_ok_frame o.queryLlm init s1 hq
  have hroute : route_after_retrieval (retrievalExecute o.vectorIndex s1) = "quiz" := by
    simp [route_after_retrieval, retrievalExecute_intent, hi]
  simp only [runGraph, hq, hroute]
  rw [if_pos trivial]
  cases hz : quizExecute o.quizLlm (retrievalExecute o.vectorIndex s1) with
  | error e =>
    simp only [runFromQuiz, hz]
    refine ⟨by decide, by decide, ?_, ?_⟩
    · intro hmem
      exact absurd hmem (by decide)
    · intro final hfin
      exact Except.noConfusion hfin
  | ok s4 =>
    have hans4 : s4.student_answers = init.student_answers := by
      rw [(quizExecute_ok_frame o.quizLlm _ s4 hz).2, retrievalExecute_answers, hans1]
    simp only [runFromQuiz, hz]
    by_cases hne : init.student_answers = []
    · have hroute2 : route_after_quiz s4 = "end" := by
        simp [route_after_quiz, hans4, hne]
      rw [hroute2, if_neg (by decide)]
      refine ⟨?_, ?_, ?_, ?_⟩
      · show Node.teaching ∉ [Node.queryUnderstanding, Node.retrieval, Node.quizGeneration]
        decide
      · show List.take 3 [Node.queryUnderstanding, Node.retrieval, Node.quizGeneration] =
          [Node.queryUnderstanding, Node.retrieval, Node.quizGeneration]
        decide
      · intro hmem
        have hmem2 : Node.evaluate ∈
            [Node.queryUnderstanding, Node.retrieval, Node.quizGeneration] := hmem
        exact absurd hmem2 (by decide)
      · intro final hfin hne2
        exact absurd hne hne2
    · have hroute2 : route_after_quiz s4 = "evaluate" := by
        simp [route_after_quiz, hans4, hne]
      rw [hroute2, if_pos rfl]
      cases he : evaluationExecute o.evalLlm s4 with
      | error e =>
        simp only [he]
        exact ⟨by decide, by decide, fun _ => hne, fun final hfin _ => by decide⟩
      | ok s5 =>
        simp only [he]
        exact ⟨by decide, by decide, fun _ => hne, fun final hfin _ => by decide⟩

/-- C6: on a run whose classified intent is `concept` or `doubt`, the
graph visits exactly QueryUnderstanding, Retrieval and Teaching in that
order and terminates, never invoking QuizGeneration or Evaluate. -/
theorem concept_doubt_routing (o : Oracles) (init s1 : AgentState)
    (hq : queryExecute o.queryLlm init = .ok s1)
    (hi : s1.intent = "concept" ∨ s1.intent = "doubt") :
    runGraph o init =
      ([.queryUnderstanding, .retrieval, .teaching],
       .ok (teachingExecute o.teachLlm (retrievalExecute o.vectorIndex s1))) := by
  have hroute : route_after_retrieval (retrievalExecute o.vectorIndex s1) = "teaching" := by
    rcases hi with h | h <;> simp [route_after_retrieval, retrievalExecute_intent, h]
  have hroute2 : route_after_teaching
      (teachingExecute o.teachLlm (retrievalExecute o.vectorIndex s1)) = "end" := by
    rcases hi with h | h <;>
      simp [route_after_teaching, teachingExecute_intent, retrievalExecute_intent, h]
  simp only [runGraph, hq, hroute, hroute2]
  rw [if_neg (by decide), if_pos trivial, if_neg (by decide)]

/-- Concrete oracles used by the quiz-shortcut witness: the classifier
reply parses to intent `quiz`, every other generation reply is
unparseable, and no vector index is loaded. -/
def c5Oracles : Oracles :=
  { queryLlm := fun _ => some (.obj [("intent", .str "quiz"), ("topic", .str "t"),
      ("difficulty", .str "easy")])
    vectorIndex := none
    teachLlm := fun _ _ _ _ => ""
    quizLlm := fun _ _ _ _ => none
    evalLlm := fun _ _ _ _ => none }

/-- Initial state of the quiz-shortcut witness run (one submitted
answer). -/
def c5Init : AgentState := initialState "q" [(0, "a")]

/-- The state after the query node on the quiz-shortcut witness run. -/
def c5S1 : AgentState :=
  { query := "q"
    intent := "quiz"
    topic := "t"
    difficulty := "easy"
    context := ""
    explanation := ""
    quiz := some []
    student_answers := [(0, "a")]
    evaluation := none }

/-- The final state of the quiz-shortcut witness run. -/
def c5Final : AgentState :=
  { query := "q"
    intent := "quiz"
    topic := "t"
    difficulty := "easy"
    context := "No relevant context found."
    explanation := ""
    quiz := some [quizFallbackQuestion "t"]
    student_answers := [(0, "a")]
    evaluation := some
      { overall_score := pyRound2 (((50 : Int) : ℚ) / ((1 : Nat) : ℚ))
        questions_evaluated := 1
        correct_answers := 0
        incorrect_answers := 1
        evaluations := [{ shortAnswerFallback with question_number := 1 }] } }

/-- Witness for `quiz_intent_shortcut`: a completed quiz-intent run
with one submitted answer never visits Teaching and visits Evaluate. -/
theorem quiz_intent_shortcut_witness :
    Node.teaching ∉ (runGraph c5Oracles c5Init).1 ∧
    Node.evaluate ∈ (runGraph c5Oracles c5Init).1 := by
  have h := quiz_intent_shortcut c5Oracles c5Init c5S1 rfl rfl
  exact ⟨h.1, h.2.2.2 c5Final rfl (by decide)⟩

/-- Concrete oracles used by the concept-routing witness. -/
def c6Oracles : Oracles :=
  { queryLlm := fun _ => some (.obj [("intent", .str "concept"), ("topic", .str "t"),
      ("difficulty", .str "medium")])
    vectorIndex := none
    teachLlm := fun _ _ _ _ => "an explanation"
    quizLlm := fun _ _ _ _ => none
    evalLlm := fun _ _ _ _ => none }

/-- Initial state of the concept-routing witness run. -/
def c6Init : AgentState := initialState "what is x" []

/-- The state after the query node on the concept-routing witness
run. -/
def c6S1 : AgentState :=
  { query := "what is x"
    intent := "concept"
    topic := "t"
    difficulty := "medium"
    context := ""
    explanation := ""
    quiz := some []
    student_answers := []
    evaluation := none }

/-- Witness for `concept_doubt_routing`: a concept-intent run visits
exactly QueryUnderstanding, Retrieval and Teaching and terminates. -/
theorem concept_doubt_routing_witness :
    runGraph c6Oracles c6Init =
      ([.queryUnderstanding, .retrieval, .teaching],
       .ok (teachingExecute c6Oracles.teachLlm
         (retrievalExecute c6Oracles.vectorIndex c6S1))) :=
  concept_doubt_routing c6Oracles c6Init c6S1 rfl (Or.inl rfl)

end MentorAI
